import Mathlib

/-!
Verification of the two procedural macros of the macros_crate package
(src/macros_crate/src/lib.rs).  Token streams are modelled as lists of
token trees in the style of the proc_macro crate; the textual form of a
stream (the to_string method) separates adjacent trees with a single
space except after a punctuation token marked joint, and renders a
string literal with quote and backslash escaping, as Literal::string
does.
-/

/-- Delimiter of a token group, as in proc_macro. -/
inductive Delimiter where
  | paren
  | bracket
  | brace
  | invisible
deriving DecidableEq, Repr

/-- A token tree, mirroring proc_macro TokenTree: an identifier, a
punctuation character with its spacing flag (joint means no space
follows in the textual form), a string literal carrying its value, any
other literal carrying its textual form, or a delimited group. -/
inductive TokenTree where
  | ident (name : String)
  | punct (ch : Char) (joint : Bool)
  | litStr (value : String)
  | litOther (text : String)
  | group (d : Delimiter) (inner : List TokenTree)

/-- A token stream is a sequence of token trees. -/
abbrev TokenStream := List TokenTree

/-- Escaping of one character inside a string literal, as
Literal::string performs it: quote and backslash are escaped, every
other character is kept. -/
def escapeChar (c : Char) : String :=
  if c == Char.ofNat 34 then String.singleton (Char.ofNat 92) ++ String.singleton (Char.ofNat 34)
  else if c == Char.ofNat 92 then String.singleton (Char.ofNat 92) ++ String.singleton (Char.ofNat 92)
  else String.singleton c

/-- Escaping of a whole string for inclusion in a string literal. -/
def escapeString (s : String) : String :=
  String.join (s.data.map escapeChar)

/-- Opening bracket of a delimiter. -/
def openDelim : Delimiter → String
  | .paren => "("
  | .bracket => "["
  | .brace => "\x7b"
  | .invisible => ""

/-- Closing bracket of a delimiter. -/
def closeDelim : Delimiter → String
  | .paren => ")"
  | .bracket => "]"
  | .brace => "\x7d"
  | .invisible => ""

/-- Whether a token tree is a punctuation token with joint spacing. -/
def TokenTree.isJoint : TokenTree → Bool
  | .punct _ j => j
  | _ => false

mutual

/-- Textual form of one token tree. -/
def TokenTree.toText : TokenTree → String
  | .ident n => n
  | .punct c _ => String.singleton c
  | .litStr v =>
      String.singleton (Char.ofNat 34) ++ escapeString v ++ String.singleton (Char.ofNat 34)
  | .litOther t => t
  | .group d inner => openDelim d ++ TokenStream.toText inner ++ closeDelim d

/-- Textual form of a token stream (the to_string method of
TokenStream): trees are separated by one space, except that no space
follows a joint punctuation token. -/
def TokenStream.toText : List TokenTree → String
  | [] => ""
  | [t] => TokenTree.toText t
  | t :: u :: rest =>
      TokenTree.toText t ++ (if TokenTree.isJoint t then "" else " ") ++
        TokenStream.toText (u :: rest)

end

/-- Whether a character can start a Rust identifier (letter or underscore). -/
def isIdentStart (c : Char) : Bool :=
  c.isAlpha || c == Char.ofNat 95

/-- Whether a character can continue a Rust identifier. -/
def isIdentCont (c : Char) : Bool :=
  c.isAlphanum || c == Char.ofNat 95

/-- The delimiter opened by a character, when there is one. -/
def openDelimOf (c : Char) : Option Delimiter :=
  if c == '(' then some Delimiter.paren
  else if c == '[' then some Delimiter.bracket
  else if c == Char.ofNat 123 then some Delimiter.brace
  else none

/-- The character that closes a delimiter. -/
def closeDelimChar : Delimiter → Char
  | .paren => ')'
  | .bracket => ']'
  | .brace => Char.ofNat 125
  | .invisible => Char.ofNat 0

/-- Whether a character closes some delimiter. -/
def isCloseDelim (c : Char) : Bool :=
  c == ')' || c == ']' || c == Char.ofNat 125

/-- Lexing of the body of a string literal, after its opening quote:
yields the unescaped value and the characters after the closing quote,
or nothing on an unterminated literal or an unknown escape. -/
def lexStringBody : List Char → Option (String × List Char)
  | [] => none
  | c :: cs =>
    if c == Char.ofNat 34 then some ("", cs)
    else if c == Char.ofNat 92 then
      match cs with
      | [] => none
      | e :: cs2 =>
        let dec : Option Char :=
          if e == Char.ofNat 34 then some (Char.ofNat 34)
          else if e == Char.ofNat 92 then some (Char.ofNat 92)
          else if e == 'n' then some (Char.ofNat 10)
          else if e == 't' then some (Char.ofNat 9)
          else if e == 'r' then some (Char.ofNat 13)
          else if e == '0' then some (Char.ofNat 0)
          else none
        match dec with
        | none => none
        | some d => (lexStringBody cs2).map (fun p => (String.singleton d ++ p.1, p.2))
    else (lexStringBody cs).map (fun p => (String.singleton c ++ p.1, p.2))

/-- Fuelled lexer for Rust token streams: consumes characters until the
input ends or a closing delimiter is reached, returning the tokens read
and the unconsumed characters (which begin with the closing delimiter
when one stopped the run).  Identifier and literal runs, string
literals, nested delimited groups and punctuation are recognised;
punctuation is joint when another punctuation character follows at
once. -/
def lexRun : Nat → List Char → Option (TokenStream × List Char)
  | 0, _ => none
  | _ + 1, [] => some ([], [])
  | fuel + 1, c :: cs =>
    if c.isWhitespace then lexRun fuel cs
    else if isIdentStart c then
      let run := (c :: cs).takeWhile isIdentCont
      let rest := (c :: cs).dropWhile isIdentCont
      (lexRun fuel rest).map (fun p => (TokenTree.ident (String.mk run) :: p.1, p.2))
    else if c.isDigit then
      let run := (c :: cs).takeWhile isIdentCont
      let rest := (c :: cs).dropWhile isIdentCont
      (lexRun fuel rest).map (fun p => (TokenTree.litOther (String.mk run) :: p.1, p.2))
    else if c == Char.ofNat 34 then
      match lexStringBody cs with
      | none => none
      | some (v, rest) =>
        (lexRun fuel rest).map (fun p => (TokenTree.litStr v :: p.1, p.2))
    else
      match openDelimOf c with
      | some d =>
        match lexRun fuel cs with
        | none => none
        | some (inner, rest) =>
          match rest with
          | [] => none
          | r :: rs =>
            if r == closeDelimChar d then
              (lexRun fuel rs).map (fun p => (TokenTree.group d inner :: p.1, p.2))
            else none
      | none =>
        if isCloseDelim c then some ([], c :: cs)
        else
          let joint :=
            match cs with
            | [] => false
            | e :: _ =>
              !(e.isWhitespace || isIdentStart e || e.isDigit || e == Char.ofNat 34 ||
                (openDelimOf e).isSome || isCloseDelim e)
          (lexRun fuel cs).map (fun p => (TokenTree.punct c joint :: p.1, p.2))

/-- Embedding of str::parse::<TokenStream> (TokenStream::from_str): lex
the whole string; the parse fails when lexing fails or stops early at an
unmatched closing delimiter. -/
def parseTokenStream (s : String) : Option TokenStream :=
  match lexRun (s.length + 1) s.data with
  | some (ts, []) => some ts
  | _ => none

/-- Embedding of make_item_const (src/macros_crate/src/lib.rs, lines
7-13): bind item_str to tokens.to_string() and return the expansion of
quote, namely the token stream of
const ITEM_SRC : & [lifetime static] str = [string literal item_str] ;
where the string literal carries item_str as its value. -/
def make_item_const (tokens : TokenStream) : TokenStream :=
  let item_str := TokenStream.toText tokens
  [ TokenTree.ident "const",
    TokenTree.ident "ITEM_SRC",
    TokenTree.punct ':' false,
    TokenTree.punct '&' false,
    TokenTree.punct (Char.ofNat 39) true,
    TokenTree.ident "static",
    TokenTree.ident "str",
    TokenTree.punct '=' false,
    TokenTree.litStr item_str,
    TokenTree.punct ';' false ]

/-- Embedding of print_foreign_item (src/macros_crate/src/lib.rs, lines
17-20): the first component records the lines printed by println (one
line, tokens.to_string()); the second is the result of parsing the empty
string literal, which the source unwraps (a none here would model a
panic of that unwrap). -/
def print_foreign_item (tokens : TokenStream) : List String × Option TokenStream :=
  ([TokenStream.toText tokens], parseTokenStream "")

/-- Modelled from the spec: the external token-import facility
(the import_tokens_proc attribute of the macro_magic crate, which is a
dependency and not part of src/).  Given a resolver mapping foreign
item references to their token streams, it yields the tokens of the
referenced item, or a compile-time diagnostic when the reference cannot
be resolved (spec sections 7 and 8). -/
def importTokens (resolve : String → Option TokenStream) (ref : String) :
    Except String TokenStream :=
  match resolve ref with
  | some ts => Except.ok ts
  | none => Except.error ("could not resolve foreign item: " ++ ref)

/-- Modelled from the spec: the macro entry point that the attribute
import_tokens_proc builds around make_item_const: it imports the tokens
of the referenced foreign item, then runs the body on them; a failure
of the resolution is surfaced unchanged. -/
def make_item_const_entry (resolve : String → Option TokenStream) (ref : String) :
    Except String TokenStream :=
  (importTokens resolve ref).map make_item_const

/-- Modelled from the spec: the macro entry point that the attribute
import_tokens_proc builds around print_foreign_item. -/
def print_foreign_item_entry (resolve : String → Option TokenStream) (ref : String) :
    Except String (List String × Option TokenStream) :=
  (importTokens resolve ref).map print_foreign_item

/-- Analyzer: the tokens that follow the first top-level equals sign of
a stream, when present. -/
def afterEqSign : TokenStream → Option TokenStream
  | [] => none
  | TokenTree.punct c _ :: rest =>
      if c == '=' then some rest else afterEqSign rest
  | _ :: rest => afterEqSign rest

/-- Analyzer: the value of the initializer when it is exactly one
string literal followed by one semicolon that ends the stream. -/
def strLitThenSemi : TokenStream → Option String
  | [TokenTree.litStr v, TokenTree.punct c _] =>
      if c == ';' then some v else none
  | _ => none

/-- Analyzer: when the whole stream is one constant declaration of the
form const [name] : [type tokens] = [string literal] ; this returns the
value of that string literal. -/
def constStrValue : TokenStream → Option String
  | TokenTree.ident kw :: TokenTree.ident _ :: TokenTree.punct c _ :: rest =>
      if kw == "const" && c == ':' then (afterEqSign rest).bind strLitThenSemi
      else none
  | _ => none

/-- Analyzer: the name declared by a stream that begins with a constant
declaration. -/
def constName : TokenStream → Option String
  | TokenTree.ident kw :: TokenTree.ident n :: _ =>
      if kw == "const" then some n else none
  | _ => none

/-- Analyzer: the tokens before the first top-level equals sign. -/
def takeUntilEqSign : TokenStream → TokenStream
  | [] => []
  | TokenTree.punct c sp :: rest =>
      if c == '=' then [] else TokenTree.punct c sp :: takeUntilEqSign rest
  | t :: rest => t :: takeUntilEqSign rest

/-- Analyzer: the type ascription tokens of a stream that begins with a
constant declaration (the tokens between the colon and the equals
sign). -/
def constTypeTokens : TokenStream → Option TokenStream
  | TokenTree.ident kw :: TokenTree.ident _ :: TokenTree.punct c _ :: rest =>
      if kw == "const" && c == ':' then some (takeUntilEqSign rest) else none
  | _ => none

/-- Analyzer helper: split a stream into items at top-level semicolons;
the accumulator holds the tokens of the current item in reverse. -/
def splitItemsAux : TokenStream → TokenStream → List TokenStream
  | acc, [] => if acc.isEmpty then [] else [acc.reverse]
  | acc, TokenTree.punct c sp :: rest =>
      if c == ';' then
        (acc.reverse ++ [TokenTree.punct c sp]) :: splitItemsAux [] rest
      else splitItemsAux (TokenTree.punct c sp :: acc) rest
  | acc, t :: rest => splitItemsAux (t :: acc) rest

/-- Analyzer: the items of a stream, with each top-level semicolon
ending an item (sufficient for semicolon-terminated items such as
constant declarations). -/
def splitItems (ts : TokenStream) : List TokenStream :=
  splitItemsAux [] ts

/-- Analyzer: whether a stream is exactly one constant declaration of a
string constant. -/
def isConstDecl (ts : TokenStream) : Bool :=
  (constStrValue ts).isSome

/-- A batch of independent macro invocations: each input is handed to
the operation on its own, with no state carried between invocations. -/
def runBatch (f : TokenStream → α) (inputs : List TokenStream) : List α :=
  inputs.map f

/-- C1: for every input token stream, make_item_const returns a token
stream declaring a constant whose string value exactly equals the
textual form (to_string) of the imported tokens, with no validation,
transformation, or escaping applied beyond that textual conversion. -/
theorem make_item_const_value_is_to_string (ts : TokenStream) :
    constStrValue (make_item_const ts) = some (TokenStream.toText ts) := by
  rfl

/-- C2: for every input token stream, print_foreign_item returns an
empty token stream, contributing no code to the compiled output. -/
theorem print_foreign_item_returns_empty (ts : TokenStream) :
    (print_foreign_item ts).2 = some ([] : TokenStream) := by
  rfl

/-- C3: for every input token stream, the side-effect output printed by
print_foreign_item is exactly one line holding the textual form
(to_string) of the imported tokens. -/
theorem print_foreign_item_prints_to_string (ts : TokenStream) :
    (print_foreign_item ts).1 = [TokenStream.toText ts] := by
  rfl

/-- C4: invoking either make_item_const or print_foreign_item on an
unresolvable foreign-item reference surfaces a compile-time failure (a
diagnostic from the token-import facility) rather than succeeding
silently. -/
theorem unresolvable_reference_fails (resolve : String → Option TokenStream)
    (ref : String) (h : resolve ref = none) :
    make_item_const_entry resolve ref =
      Except.error ("could not resolve foreign item: " ++ ref) ∧
    print_foreign_item_entry resolve ref =
      Except.error ("could not resolve foreign item: " ++ ref) := by
  constructor <;>
    simp [make_item_const_entry, print_foreign_item_entry, importTokens, h, Except.map]

/-- Witness for C4 at a concrete resolver that knows no item and the
reference missing_item. -/
theorem unresolvable_reference_fails_witness :
    ((fun _ : String => (none : Option TokenStream)) "missing_item" = none) ∧
    (make_item_const_entry (fun _ => none) "missing_item" =
      Except.error ("could not resolve foreign item: " ++ "missing_item") ∧
     print_foreign_item_entry (fun _ => none) "missing_item" =
      Except.error ("could not resolve foreign item: " ++ "missing_item")) :=
  ⟨rfl, unresolvable_reference_fails (fun _ => none) "missing_item" rfl⟩

/-- C5: for every input token stream, the token stream emitted by
make_item_const consists of exactly one item, and that item is a
constant declaration. -/
theorem make_item_const_single_item (ts : TokenStream) :
    splitItems (make_item_const ts) = [make_item_const ts] ∧
    isConstDecl (make_item_const ts) = true := by
  exact ⟨rfl, rfl⟩

/-- C6: both operations are stateless and deterministic: two
invocations on equal input token streams return equal results, whatever
invocations preceded each of them in a batch. -/
theorem ops_stateless_deterministic (pre1 pre2 : List TokenStream)
    (ts1 ts2 : TokenStream) (h : ts1 = ts2) :
    (runBatch make_item_const (pre1 ++ [ts1])).getLast? =
      (runBatch make_item_const (pre2 ++ [ts2])).getLast? ∧
    (runBatch print_foreign_item (pre1 ++ [ts1])).getLast? =
      (runBatch print_foreign_item (pre2 ++ [ts2])).getLast? := by
  subst h
  constructor <;> simp [runBatch]

/-- Witness for C6 at concrete histories of different lengths and the
concrete input consisting of one identifier. -/
theorem ops_stateless_deterministic_witness :
    (([TokenTree.ident "x"] : TokenStream) = [TokenTree.ident "x"]) ∧
    ((runBatch make_item_const ([[]] ++ [[TokenTree.ident "x"]])).getLast? =
      (runBatch make_item_const ([] ++ [[TokenTree.ident "x"]])).getLast? ∧
     (runBatch print_foreign_item ([[]] ++ [[TokenTree.ident "x"]])).getLast? =
      (runBatch print_foreign_item ([] ++ [[TokenTree.ident "x"]])).getLast?) :=
  ⟨rfl, ops_stateless_deterministic [[]] [] [TokenTree.ident "x"] [TokenTree.ident "x"] rfl⟩

/-- C7: both operations are total: each returns a result for every
input token stream; in particular the parse of the empty string literal
in print_foreign_item succeeds, so its unwrap never panics, and
make_item_const always returns its ten-token declaration. -/
theorem ops_total_no_panic (ts : TokenStream) :
    ((print_foreign_item ts).2).isSome = true ∧
    (make_item_const ts).length = 10 := by
  exact ⟨rfl, rfl⟩

/-- C8: the constant emitted by make_item_const always has the fixed
name ITEM_SRC and the fixed type tokens of a static string reference,
whatever the input; hence any two invocations declare the same constant
name and would collide in one scope. -/
theorem make_item_const_fixed_name_and_type (ts1 ts2 : TokenStream) :
    constName (make_item_const ts1) = some "ITEM_SRC" ∧
    constTypeTokens (make_item_const ts1) =
      some [TokenTree.punct '&' false, TokenTree.punct (Char.ofNat 39) true,
            TokenTree.ident "static", TokenTree.ident "str"] ∧
    constName (make_item_const ts1) = constName (make_item_const ts2) := by
  exact ⟨rfl, rfl, rfl⟩

/-- C9: the output of make_item_const factors through the textual form
of its input: two input streams with equal to_string representations
produce identical output streams, even when they differ as token
structures. -/
theorem make_item_const_factors_through_text (ts1 ts2 : TokenStream)
    (h : TokenStream.toText ts1 = TokenStream.toText ts2) :
    make_item_const ts1 = make_item_const ts2 := by
  unfold make_item_const
  rw [h]

/-- Witness for C9 at two structurally different streams (a literal
token and an identifier token) with the same textual form. -/
theorem make_item_const_factors_through_text_witness :
    TokenStream.toText [TokenTree.litOther "ab"] = TokenStream.toText [TokenTree.ident "ab"] ∧
    make_item_const [TokenTree.litOther "ab"] = make_item_const [TokenTree.ident "ab"] :=
  ⟨by simp [TokenStream.toText, TokenTree.toText],
   make_item_const_factors_through_text [TokenTree.litOther "ab"] [TokenTree.ident "ab"]
     (by simp [TokenStream.toText, TokenTree.toText])⟩
